import Mathlib

/-!
Verification development for the buildbot excerpt: the git repository poller
(src/master/buildbot/changes/gitpoller.py) and the scheduler base, the latter
known here only through its unit tests and the design document, so its
operations are modelled from the design document.

The poller is callback-chained Twisted code.  We embed one poll cycle under a
deterministic reactor model: every spawned git process completes in spawn
order, and a completion is processed only after the currently running
callbacks have returned (FIFO event queue).  Machine effects are made
explicit: the poller object state is threaded through, the observable actions
of a cycle (process spawns and Change emissions) are recorded as an ordered
trace, and each git invocation takes its outcome from an environment record.
-/

/-- Whitespace as recognized by the Python str.split and str.strip used in
gitpoller: space, tab, newline, carriage return, vertical tab, form feed. -/
def isPySpace (c : Char) : Bool :=
  c = ' ' || c = '\t' || c = '\n' || c = '\r' || c = '\x0b' || c = '\x0c'

/-- Helper for pySplit: walk the characters accumulating the current word. -/
def splitWordsAux : List Char → List Char → List String
  | [], acc => if acc.isEmpty then [] else [String.mk acc.reverse]
  | c :: cs, acc =>
    if isPySpace c then
      if acc.isEmpty then splitWordsAux cs []
      else String.mk acc.reverse :: splitWordsAux cs []
    else splitWordsAux cs (c :: acc)

/-- Embedding of the Python str.split() call with no separator argument:
split on runs of whitespace and drop empty pieces. -/
def pySplit (s : String) : List String := splitWordsAux s.data []

/-- Embedding of Python str.strip(): drop leading and trailing whitespace. -/
def pyStrip (s : String) : String :=
  String.mk (((s.data.dropWhile isPySpace).reverse.dropWhile isPySpace).reverse)

/-- Numeral parse standing in for the Python float() call applied to the
output of git log with format ct.  That git format emits a plain decimal
integer epoch, so the embedding parses decimal digits; a non numeral raises
in the source and yields none here. -/
def parseEpoch (s : String) : Option Nat :=
  if s.data ≠ [] ∧ s.data.all (fun c => c.isDigit) then
    some (s.data.foldl (fun n c => 10 * n + (c.toNat - 48)) 0)
  else none

/-- The Change record built by GitPoller._add_change (buildbot.changes.changes
Change constructor arguments as used there).  The source keyword when is
rendered as whenStamp. -/
structure Change where
  who : String
  revision : String
  files : List String
  comments : String
  whenStamp : Option Nat
  branch : String
  category : Option String
  project : Option String
  repository : String
deriving DecidableEq, Repr

/-- Configuration of a GitPoller instance (the constructor arguments that the
poll cycle reads). -/
structure GitPollerCfg where
  repourl : String
  branch : String
  usetimestamps : Bool
  category : Option String
  project : Option String

/-- Mutable poller and mirror state threaded through a poll cycle:
changeCount is the instance attribute of the same name, head models the
commit the mirror working directory currently points at, parent models the
service parent being attached (truthy), stopped models stopService having
been called. -/
structure PollerState where
  changeCount : Nat
  head : String
  parent : Bool
  stopped : Bool
deriving DecidableEq, Repr

/-- Outcome of each git process a cycle may spawn.  The error case models an
errback of the corresponding deferred; the ok case carries the process
output (for the reset, the stdout, stderr and exit code triple).  tip is the
commit FETCH_HEAD names during the cycle. -/
structure GitEnv where
  fetchRes : Except Unit String
  logRes : Except Unit String
  timestampOut : String → Except Unit String
  nameOut : String → Except Unit String
  filesOut : String → Except Unit String
  commentsOut : String → Except Unit String
  resetRes : Except Unit (String × String × Int)
  tip : String

/-- Observable actions of a poll cycle, in reactor order: process spawns and
Change emissions (parent.addChange in _add_change). -/
inductive Event where
  | spawnFetch
  | spawnRevList
  | spawnMetaQueries (rev : String)
  | emit (c : Change)
  | spawnReset
  | resetExit (code : Int)
  | resetFailed
deriving DecidableEq, Repr

/-- Result of one modelled poll cycle: final state, ordered trace of
observable actions, and whether the deferred returned by poll fires its
callback (true) or its errback (false) toward the caller. -/
structure PollResult where
  state : PollerState
  trace : List Event
  success : Bool
deriving Repr

/-- The shared commitInfo dictionary.  Every per field callback stores into
the one dictionary the instance attribute points at when the callback runs;
an outer none means the key was never stored (the callback raised or its
process failed). -/
structure CommitInfo where
  timestamp : Option (Option Nat) := none
  name : Option String := none
  files : Option (List String) := none
  comments : Option String := none
deriving DecidableEq, Repr

/-- Embedding of GitPoller._get_commit_timestamp_from_output: strip the
output; with usetimestamps parse it (raising, so leaving the key unset, on a
bad numeral), otherwise store None under the key. -/
def getCommitTimestampFromOutput (cfg : GitPollerCfg) (info : CommitInfo)
    (gitOutput : String) : CommitInfo :=
  if cfg.usetimestamps then
    match parseEpoch (pyStrip gitOutput) with
    | some stamp => { info with timestamp := some (some stamp) }
    | none => info
  else { info with timestamp := some none }

/-- Embedding of GitPoller._get_commit_name_from_output: strip the output and
raise (leaving the key unset) when it is empty. -/
def getCommitNameFromOutput (info : CommitInfo) (gitOutput : String) : CommitInfo :=
  if pyStrip gitOutput = "" then info
  else { info with name := some (pyStrip gitOutput) }

/-- Embedding of GitPoller._get_commit_files_from_output: split the output on
whitespace. -/
def getCommitFilesFromOutput (info : CommitInfo) (gitOutput : String) : CommitInfo :=
  { info with files := some (pySplit gitOutput) }

/-- Embedding of GitPoller._get_commit_comments_from_output: strip the output
and raise (leaving the key unset) when it is empty. -/
def getCommitCommentsFromOutput (info : CommitInfo) (gitOutput : String) : CommitInfo :=
  if pyStrip gitOutput = "" then info
  else { info with comments := some (pyStrip gitOutput) }

/-- Run one metadata query: on process success apply the from_output
callback, on an errback leave the dictionary untouched (the callback never
runs and the failure stays on the per commit deferred list). -/
def runQuery (res : Except Unit String)
    (applyOut : CommitInfo → String → CommitInfo) (info : CommitInfo) : CommitInfo :=
  match res with
  | .ok o => applyOut info o
  | .error _ => info

/-- Embedding of GitPoller._add_change fed by the four metadata callbacks of
one commit (spawn order: timestamp, name, files, comments, as in the
deferreds list of _process_changes_in_output).  The callbacks mutate the one
shared commitInfo dictionary, so the incoming info carries whatever earlier
commits left there.  _add_change reads the four keys; a missing key raises
KeyError on the per commit deferred list and no Change is emitted. -/
def processRev (cfg : GitPollerCfg) (env : GitEnv) (info : CommitInfo)
    (rev : String) : CommitInfo × Option Change :=
  let i1 := runQuery (env.timestampOut rev) (getCommitTimestampFromOutput cfg) info
  let i2 := runQuery (env.nameOut rev) getCommitNameFromOutput i1
  let i3 := runQuery (env.filesOut rev) getCommitFilesFromOutput i2
  let i4 := runQuery (env.commentsOut rev) getCommitCommentsFromOutput i3
  match i4.name, i4.files, i4.comments, i4.timestamp with
  | some nm, some fs, some cm, some ts =>
      (i4, some { who := nm, revision := rev, files := fs, comments := cm,
                  whenStamp := ts, branch := cfg.branch, category := cfg.category,
                  project := cfg.project, repository := cfg.repourl })
  | _, _, _, _ => (i4, none)

/-- Process the oldest first rev list: under the FIFO reactor model the four
queries of one commit all complete before those of the next commit, so the
per commit deferred lists fire in rev order and the emissions come out in
that order. -/
def processRevs (cfg : GitPollerCfg) (env : GitEnv) :
    CommitInfo → List String → CommitInfo × List Change
  | info, [] => (info, [])
  | info, r :: rs =>
    let step := processRev cfg env info r
    let rest := processRevs cfg env step.1 rs
    (rest.1, step.2.toList ++ rest.2)

/-- Embedding of GitPoller.stopService as called from
_catch_up_finished_failure: only acts when the service has a parent. -/
def stopIfParent (s : PollerState) : PollerState :=
  if s.parent then { s with stopped := true } else s

/-- Trace of the catch up stage.  With a zero changeCount _catch_up spawns
nothing.  Otherwise the reset is spawned while the metadata queries are still
pending, because _process_changes_in_output drops its deferred lists and
returns None, letting the poll chain continue at once; under the FIFO model
the pending metadata completions (the emissions) are then processed before
the reset completion. -/
def catchUpTrace (env : GitEnv) (count : Nat) (emits : List Change) : List Event :=
  if count = 0 then emits.map Event.emit
  else
    match env.resetRes with
    | .error _ => Event.spawnReset :: (emits.map Event.emit ++ [Event.resetFailed])
    | .ok (_, _, code) => Event.spawnReset :: (emits.map Event.emit ++ [Event.resetExit code])

/-- State after the catch up stage, embedding _catch_up, _catch_up_finished
and _catch_up_finished_failure.  With changeCount zero, _catch_up returns the
integer zero, _catch_up_finished tuple unpacks it and raises TypeError, and
the failure handler stops the service.  Otherwise git reset hard FETCH_HEAD
runs: exit code zero moves the mirror head to the fetched tip; a nonzero
code or a process failure reaches the failure handler, which stops the
service. -/
def catchUpState (env : GitEnv) (s : PollerState) : PollerState :=
  if s.changeCount = 0 then stopIfParent s
  else
    match env.resetRes with
    | .error _ => stopIfParent s
    | .ok (_, _, code) =>
      if code = 0 then { s with head := env.tip } else stopIfParent s

/-- Tail of every poll cycle.  The final errback _catch_up_finished_failure
returns None, consuming any failure, so the deferred handed back by poll
always fires its callback side: success is true in every branch. -/
def finishCycle (env : GitEnv) (s : PollerState) (pre : List Event)
    (emits : List Change) : PollResult :=
  { state := catchUpState env s,
    trace := pre ++ catchUpTrace env s.changeCount emits,
    success := true }

/-- Embedding of GitPoller.poll under the FIFO reactor model.  A fetch or rev
list errback skips _process_changes_in_output (changeCount keeps its value
from the previous cycle) and is then eaten by _changes_finished_failure,
after which the chain still proceeds to _catch_up.  On success the rev list
is split and reversed so the oldest commit comes first, changeCount is set to
its length, the metadata queries are spawned per commit, and the cycle
finishes through the catch up stage. -/
def poll (cfg : GitPollerCfg) (env : GitEnv) (s : PollerState) : PollResult :=
  match env.fetchRes with
  | .error _ => finishCycle env s [Event.spawnFetch] []
  | .ok _ =>
    match env.logRes with
    | .error _ => finishCycle env s [Event.spawnFetch, Event.spawnRevList] []
    | .ok out =>
      let revs := (pySplit out).reverse
      finishCycle env { s with changeCount := revs.length }
        (Event.spawnFetch :: Event.spawnRevList :: revs.map Event.spawnMetaQueries)
        (processRevs cfg env {} revs).2

/-- The Changes a trace emits, in order. -/
def emittedChanges (t : List Event) : List Change :=
  t.filterMap (fun e => match e with | Event.emit c => some c | _ => none)

/-- A commit whose four metadata queries all succeed with well formed output:
the timestamp parses (or timestamps are disabled), and author and message
are nonempty after stripping. -/
def goodRev (cfg : GitPollerCfg) (env : GitEnv) (rev : String) : Prop :=
  (∃ o, env.timestampOut rev = .ok o ∧
    (cfg.usetimestamps = false ∨ (parseEpoch (pyStrip o)).isSome = true)) ∧
  (∃ o, env.nameOut rev = .ok o ∧ pyStrip o ≠ "") ∧
  (∃ o, env.filesOut rev = .ok o) ∧
  (∃ o, env.commentsOut rev = .ok o ∧ pyStrip o ≠ "")

example : pySplit "  c3 \n c2\nc1 " = ["c3", "c2", "c1"] := by decide
example : pyStrip " ab\n" = "ab" := by decide
example : parseEpoch "1234" = some 1234 := by decide
example : parseEpoch "12x" = none := by decide

/-!
Scheduler base and Buildset Factory.  The module buildbot/schedulers/base.py
is not part of this excerpt; only its unit tests are.  The operations below
are therefore modelled from the design document and checked for consistency
against the expectations recorded in test_schedulers_base.py.
-/

/-- A Change row as recorded in the database (the fields the tests populate
through fakedb.Change). -/
structure DbChange where
  changeid : Nat
  branch : Option String
  revision : String
  repository : String
  project : String
deriving DecidableEq, Repr

/-- SourceStamp: a resolved description of what to build. -/
structure SourceStamp where
  branch : Option String
  repository : String
  project : String
  revision : Option String
  changeids : List Nat
deriving DecidableEq, Repr

/-- A persisted buildset together with its property rows, in insertion
order: each property row is a name with a value and source pair. -/
structure Buildset where
  reason : String
  builderNames : List String
  externalIdstring : Option String
  properties : List (String × String × String)
  ss : SourceStamp
deriving DecidableEq, Repr

/-- A scheduler instance: its unique name and configured builder list. -/
structure Scheduler where
  name : String
  builderNames : List String
deriving DecidableEq, Repr

/-- Modelled from the spec: the Buildset Factory (design document section
4.5) always injects a scheduler property, valued with the scheduler name and
sourced Scheduler, ahead of the caller supplied properties; both are
retained as separate entries keyed by insertion order, never merged by
name. -/
def createBuildset (schedName : String) (ss : SourceStamp) (reason : String)
    (builderNames : List String) (ext : Option String)
    (callerProps : List (String × String × String)) : Buildset :=
  { reason := reason, builderNames := builderNames, externalIdstring := ext,
    properties := ("scheduler", schedName, "Scheduler") :: callerProps,
    ss := ss }

/-- First database row carrying the given changeid. -/
def findChange (db : List DbChange) (cid : Nat) : Option DbChange :=
  db.find? (fun c => c.changeid == cid)

/-- Numerically largest changeid of a nonempty list. -/
def maxChangeid : List Nat → Option Nat
  | [] => none
  | x :: xs => some (xs.foldl max x)

/-- Modelled from the spec: addBuildsetForChanges (design document section
4.4) resolves a SourceStamp from the given changeids, taking branch,
repository, project and revision from the Change with the numerically
highest changeid and attaching the full changeid set sorted ascending, then
delegates to the Buildset Factory. -/
def addBuildsetForChanges (sched : Scheduler) (db : List DbChange)
    (reason : String) (changeids : List Nat)
    (callerProps : List (String × String × String)) : Option Buildset :=
  match maxChangeid changeids with
  | none => none
  | some m =>
    match findChange db m with
    | none => none
    | some c =>
      some (createBuildset sched.name
        { branch := c.branch, repository := c.repository, project := c.project,
          revision := some c.revision,
          changeids := List.insertionSort (fun a b => a ≤ b) changeids }
        reason sched.builderNames none callerProps)

/-- Modelled from the spec: addBuildsetForLatest builds an empty SourceStamp
from the supplied coordinates and delegates to the Buildset Factory. -/
def addBuildsetForLatest (sched : Scheduler) (reason : String)
    (branch : Option String) (repository project : String) (ext : Option String)
    (callerProps : List (String × String × String)) : Buildset :=
  createBuildset sched.name
    { branch := branch, repository := repository, project := project,
      revision := none, changeids := [] }
    reason sched.builderNames ext callerProps

/-- Modelled from the spec: addBuildsetForSourceStamp wraps the Buildset
Factory using a pre resolved source stamp. -/
def addBuildsetForSourceStamp (sched : Scheduler) (reason : String)
    (ss : SourceStamp) (ext : Option String)
    (callerProps : List (String × String × String)) : Buildset :=
  createBuildset sched.name ss reason sched.builderNames ext callerProps

/-- Importance classification of an incoming Change. -/
inductive Classification where
  | important
  | unimportant
  | ignored
deriving DecidableEq, Repr

/-- Result of classifying one Change: the classification and whether an
error was logged while evaluating the predicate. -/
structure ClassifyOutcome where
  result : Classification
  loggedError : Bool
deriving DecidableEq, Repr

/-- Modelled from the spec: evaluate the fileIsImportant predicate (default:
always important); if evaluation raises, log the error and classify the
Change as ignored, propagating nothing. -/
def evalImportance (fii : Option (Change → Except Unit Bool)) (c : Change) :
    ClassifyOutcome :=
  match fii with
  | none => { result := .important, loggedError := false }
  | some f =>
    match f c with
    | .ok true => { result := .important, loggedError := false }
    | .ok false => { result := .unimportant, loggedError := false }
    | .error _ => { result := .ignored, loggedError := true }

/-- Modelled from the spec: classification per incoming Change (design
document section 4.4): a present change_filter that rejects the Change
classifies it as ignored silently; otherwise fileIsImportant decides. -/
def classifyChange (changeFilter : Option (Change → Bool))
    (fii : Option (Change → Except Unit Bool)) (c : Change) : ClassifyOutcome :=
  match changeFilter with
  | some flt =>
    if flt c then evalImportance fii c
    else { result := .ignored, loggedError := false }
  | none => evalImportance fii c

/-- Modelled from the spec: the bus handler a scheduler registers.  It
classifies the Change and hands the classification to the scheduler change
hook; because classification consumes predicate errors internally, the
handler never fails toward the bus. -/
def schedulerBusHandler (changeFilter : Option (Change → Bool))
    (fii : Option (Change → Except Unit Bool)) : Change → Except Unit Unit :=
  fun c =>
    match classifyChange changeFilter fii c with
    | _ => Except.ok ()

/-- Modelled from the spec: Change Bus delivery (design document section
4.3): synchronous, in registration order, each handler isolated; records per
handler whether it succeeded. -/
def publishToAll (handlers : List (Change → Except Unit Unit)) (c : Change) :
    List Bool :=
  handlers.map (fun h => match h c with | .ok _ => true | .error _ => false)

/-- Per scheduler persistent key value state, first entry with a key wins. -/
def lookupState {V : Type} : List (String × V) → String → Option V
  | [], _ => none
  | p :: rest, k => if p.1 = k then some p.2 else lookupState rest k

/-- Modelled from the spec: setState durably persists the value under the
key; overwriting is observational through lookupState, the newest entry
shadowing older ones. -/
def setState {V : Type} (st : List (String × V)) (k : String) (v : V) :
    List (String × V) :=
  (k, v) :: st

/-- A sequence of setState calls applied to the initially empty store. -/
def applyOps {V : Type} (ops : List (String × V)) : List (String × V) :=
  ops.foldl (fun st p => setState st p.1 p.2) []

/-- Result of getState: a value, or the distinct missing key error. -/
inductive GetStateResult (V : Type) where
  | value (v : V)
  | missingKeyError
deriving DecidableEq, Repr

/-- Modelled from the spec: getState with key and optional default reads the
persisted state; it fails with the distinct missing key error when no
default was supplied and the key is absent, returns the default when one was
supplied and the key is absent, and returns the stored value whenever one is
present. -/
def getState {V : Type} (st : List (String × V)) (k : String)
    (deflt : Option V) : GetStateResult V :=
  match lookupState st k with
  | some v => .value v
  | none =>
    match deflt with
    | some d => .value d
    | none => .missingKeyError

/-! Concrete inputs used by the closed theorems below. -/

def cfgW1 : GitPollerCfg :=
  { repourl := "giturl", branch := "master", usetimestamps := true,
    category := none, project := none }

def envW1 : GitEnv :=
  { fetchRes := Except.ok "fetchnoise",
    logRes := Except.ok "c2\nc1\n",
    timestampOut := fun r => if r = "c1" then Except.ok "100" else Except.ok "200",
    nameOut := fun r => if r = "c1" then Except.ok " alice " else Except.ok "bob",
    filesOut := fun _ => Except.ok "f1 f2",
    commentsOut := fun _ => Except.ok "msg",
    resetRes := Except.ok ("", "", 0),
    tip := "c2" }

def sW1 : PollerState :=
  { changeCount := 0, head := "c0", parent := true, stopped := false }

def cfgC2 : GitPollerCfg :=
  { repourl := "url", branch := "master", usetimestamps := true,
    category := none, project := none }

def envC2 : GitEnv :=
  { fetchRes := Except.ok "",
    logRes := Except.ok "r1",
    timestampOut := fun _ => Except.ok "10",
    nameOut := fun _ => Except.ok "alice",
    filesOut := fun _ => Except.ok "f1",
    commentsOut := fun _ => Except.ok "msg",
    resetRes := Except.ok ("", "", 0),
    tip := "r1" }

def sC2 : PollerState :=
  { changeCount := 0, head := "base", parent := true, stopped := false }

def chgC2 : Change :=
  { who := "alice", revision := "r1", files := ["f1"], comments := "msg",
    whenStamp := some 10, branch := "master", category := none, project := none,
    repository := "url" }

def cfgC3 : GitPollerCfg :=
  { repourl := "url3", branch := "master", usetimestamps := true,
    category := none, project := none }

def envC3 : GitEnv :=
  { fetchRes := Except.error (), logRes := Except.error (),
    timestampOut := fun _ => Except.error (),
    nameOut := fun _ => Except.error (),
    filesOut := fun _ => Except.error (),
    commentsOut := fun _ => Except.error (),
    resetRes := Except.ok ("", "", 0), tip := "newtip" }

def sC3 : PollerState :=
  { changeCount := 2, head := "oldhead", parent := true, stopped := false }

def envC3w : GitEnv :=
  { fetchRes := Except.error (), logRes := Except.error (),
    timestampOut := fun _ => Except.error (),
    nameOut := fun _ => Except.error (),
    filesOut := fun _ => Except.error (),
    commentsOut := fun _ => Except.error (),
    resetRes := Except.ok ("", "", 0), tip := "tipw" }

def sC3w : PollerState :=
  { changeCount := 1, head := "old", parent := true, stopped := false }

def cfgC4 : GitPollerCfg :=
  { repourl := "url4", branch := "master", usetimestamps := true,
    category := none, project := none }

def envC4 : GitEnv :=
  { fetchRes := Except.ok "",
    logRes := Except.ok "r1",
    timestampOut := fun _ => Except.ok "10",
    nameOut := fun _ => Except.ok "alice",
    filesOut := fun _ => Except.ok "f1",
    commentsOut := fun _ => Except.ok "msg",
    resetRes := Except.ok ("", "conflict", 1),
    tip := "r1" }

def sC4 : PollerState :=
  { changeCount := 0, head := "base", parent := true, stopped := false }

def cfgC5 : GitPollerCfg :=
  { repourl := "url5", branch := "master", usetimestamps := true,
    category := none, project := none }

def envC5 : GitEnv :=
  { fetchRes := Except.ok "x",
    logRes := Except.ok "",
    timestampOut := fun _ => Except.error (),
    nameOut := fun _ => Except.error (),
    filesOut := fun _ => Except.error (),
    commentsOut := fun _ => Except.error (),
    resetRes := Except.ok ("", "", 0), tip := "tip5" }

def envC5b : GitEnv :=
  { fetchRes := Except.ok "x",
    logRes := Except.ok "r9",
    timestampOut := fun _ => Except.ok "10",
    nameOut := fun _ => Except.ok "alice",
    filesOut := fun _ => Except.ok "f1",
    commentsOut := fun _ => Except.ok "msg",
    resetRes := Except.ok ("", "", 0), tip := "tip5" }

def sC5 : PollerState :=
  { changeCount := 7, head := "h0", parent := true, stopped := false }


def schedC6 : Scheduler := { name := "n", builderNames := ["b", "c"] }

def dbC6 : List DbChange :=
  [ { changeid := 13, branch := some "trunk", revision := "9283",
      repository := "svnrepo", project := "knitting" },
    { changeid := 14, branch := some "devel", revision := "9284",
      repository := "svnrepo", project := "making-tea" },
    { changeid := 15, branch := some "trunk", revision := "9285",
      repository := "svnrepo", project := "world-domination" } ]

def chgC615 : DbChange :=
  { changeid := 15, branch := some "trunk", revision := "9285",
    repository := "svnrepo", project := "world-domination" }

def chgC7 : Change :=
  { who := "w", revision := "rev7", files := ["a"], comments := "m",
    whenStamp := none, branch := "b", category := none, project := none,
    repository := "r" }

def schedC9 : Scheduler := { name := "xyz", builderNames := ["y", "z"] }

def dbC9 : List DbChange :=
  [ { changeid := 14, branch := some "devel", revision := "9284",
      repository := "", project := "" } ]

def ssC9 : SourceStamp :=
  { branch := some "default", repository := "hgmo", project := "myp",
    revision := none, changeids := [] }

def bsC9 : Buildset :=
  createBuildset "xyz"
    { branch := some "devel", repository := "", project := "",
      revision := some "9284",
      changeids := List.insertionSort (fun a b => a ≤ b) [14] }
    "cuz" ["y", "z"] none [("xxx", "yyy", "TEST")]

/-! Helper lemmas about emission traces. -/

theorem emittedChanges_nil : emittedChanges [] = [] := rfl

theorem emittedChanges_cons_spawnFetch (t : List Event) :
    emittedChanges (Event.spawnFetch :: t) = emittedChanges t := rfl

theorem emittedChanges_cons_spawnRevList (t : List Event) :
    emittedChanges (Event.spawnRevList :: t) = emittedChanges t := rfl

theorem emittedChanges_cons_spawnMeta (r : String) (t : List Event) :
    emittedChanges (Event.spawnMetaQueries r :: t) = emittedChanges t := rfl

theorem emittedChanges_cons_spawnReset (t : List Event) :
    emittedChanges (Event.spawnReset :: t) = emittedChanges t := rfl

theorem emittedChanges_cons_resetExit (code : Int) (t : List Event) :
    emittedChanges (Event.resetExit code :: t) = emittedChanges t := rfl

theorem emittedChanges_cons_resetFailed (t : List Event) :
    emittedChanges (Event.resetFailed :: t) = emittedChanges t := rfl

theorem emittedChanges_cons_emit (c : Change) (t : List Event) :
    emittedChanges (Event.emit c :: t) = c :: emittedChanges t := rfl

theorem emittedChanges_append (a b : List Event) :
    emittedChanges (a ++ b) = emittedChanges a ++ emittedChanges b := by
  simp [emittedChanges]

theorem emittedChanges_map_emit (cs : List Change) :
    emittedChanges (cs.map Event.emit) = cs := by
  induction cs with
  | nil => rfl
  | cons c cs ih => rw [List.map_cons, emittedChanges_cons_emit, ih]

theorem emittedChanges_map_spawnMeta (rs : List String) :
    emittedChanges (rs.map Event.spawnMetaQueries) = [] := by
  induction rs with
  | nil => rfl
  | cons r rs ih => rw [List.map_cons, emittedChanges_cons_spawnMeta, ih]

theorem emittedChanges_catchUpTrace (env : GitEnv) (count : Nat)
    (emits : List Change) : emittedChanges (catchUpTrace env count emits) = emits := by
  unfold catchUpTrace
  split
  · exact emittedChanges_map_emit emits
  · cases env.resetRes with
    | error e =>
      rw [emittedChanges_cons_spawnReset, emittedChanges_append,
        emittedChanges_map_emit, emittedChanges_cons_resetFailed,
        emittedChanges_nil, List.append_nil]
    | ok v =>
      rw [emittedChanges_cons_spawnReset, emittedChanges_append,
        emittedChanges_map_emit, emittedChanges_cons_resetExit,
        emittedChanges_nil, List.append_nil]

/-! Helper lemmas about the per commit metadata fold. -/

theorem processRev_good (cfg : GitPollerCfg) (env : GitEnv) (rev : String)
    (h : goodRev cfg env rev) (info : CommitInfo) :
    ∃ c, (processRev cfg env info rev).2 = some c ∧ c.revision = rev := by
  obtain ⟨⟨ot, hot, hts⟩, ⟨onm, hon, hnm⟩, ⟨ofl, hofl⟩, ⟨ocm, hoc, hcm⟩⟩ := h
  have h1 : ∃ tsv, getCommitTimestampFromOutput cfg info ot =
      { info with timestamp := some tsv } := by
    unfold getCommitTimestampFromOutput
    rcases hts with hts | hts
    · rw [hts]
      exact ⟨none, rfl⟩
    · obtain ⟨st, hst⟩ := Option.isSome_iff_exists.mp hts
      by_cases hu : cfg.usetimestamps
      · rw [if_pos hu, hst]
        exact ⟨some st, rfl⟩
      · rw [if_neg hu]
        exact ⟨none, rfl⟩
  obtain ⟨tsv, h1⟩ := h1
  refine ⟨{ who := pyStrip onm, revision := rev, files := pySplit ofl,
            comments := pyStrip ocm, whenStamp := tsv, branch := cfg.branch,
            category := cfg.category, project := cfg.project,
            repository := cfg.repourl }, ?_, rfl⟩
  show (processRev cfg env info rev).2 = _
  unfold processRev runQuery
  rw [hot, hon, hofl, hoc]
  dsimp only
  rw [h1]
  simp only [getCommitNameFromOutput, getCommitFilesFromOutput,
    getCommitCommentsFromOutput, if_neg hnm, if_neg hcm]

theorem processRevs_good (cfg : GitPollerCfg) (env : GitEnv) :
    ∀ (l : List String) (info : CommitInfo),
      (∀ r ∈ l, goodRev cfg env r) →
      (processRevs cfg env info l).2.map Change.revision = l := by
  intro l
  induction l with
  | nil => intro info h; rfl
  | cons r rs ih =>
    intro info h
    obtain ⟨c, hc, hrev⟩ := processRev_good cfg env r (h r (by simp)) info
    have := ih (processRev cfg env info r).1 (fun x hx => h x (by simp [hx]))
    simp [processRevs, hc, hrev, this]

/-- Claim C1: for every poll cycle in which the diff step finds N new commit
identifiers, the poller emits exactly N Changes, in oldest first order, the
reverse of the newest first git log listing; shown for cycles whose fetch and
rev listing succeed and whose metadata queries are all well formed. -/
theorem gitpoller_emits_each_new_commit_oldest_first
    (cfg : GitPollerCfg) (env : GitEnv) (s : PollerState) (out : String)
    (hf : ∃ o, env.fetchRes = Except.ok o) (hl : env.logRes = Except.ok out)
    (hg : ∀ r ∈ pySplit out, goodRev cfg env r) :
    (emittedChanges (poll cfg env s).trace).map Change.revision =
      (pySplit out).reverse ∧
    (emittedChanges (poll cfg env s).trace).length = (pySplit out).length := by
  obtain ⟨o, ho⟩ := hf
  have hrevs : ∀ r ∈ (pySplit out).reverse, goodRev cfg env r := by
    intro r hr
    exact hg r (List.mem_reverse.mp hr)
  have hmap := processRevs_good cfg env (pySplit out).reverse {} hrevs
  have htrace : emittedChanges (poll cfg env s).trace
      = (processRevs cfg env {} (pySplit out).reverse).2 := by
    simp only [poll, ho, hl, finishCycle]
    rw [emittedChanges_append, emittedChanges_cons_spawnFetch,
      emittedChanges_cons_spawnRevList, emittedChanges_map_spawnMeta,
      emittedChanges_catchUpTrace, List.nil_append]
  refine ⟨htrace ▸ hmap, ?_⟩
  have := congrArg List.length hmap
  rw [List.length_map, List.length_reverse] at this
  rw [htrace, this]

/-- Witness for claim C1: a remote that advanced by the commits c1 then c2,
listed newest first by git, yields exactly the two Changes for c1 then c2 in
that order. -/
theorem gitpoller_emits_each_new_commit_oldest_first_witness :
    (emittedChanges (poll cfgW1 envW1 sW1).trace).map Change.revision =
      ["c1", "c2"] ∧
    (emittedChanges (poll cfgW1 envW1 sW1).trace).length = 2 := by
  have hg : ∀ r ∈ pySplit "c2\nc1\n", goodRev cfgW1 envW1 r := by
    intro r hr
    have he : pySplit "c2\nc1\n" = ["c2", "c1"] := by decide
    rw [he] at hr
    simp only [List.mem_cons, List.not_mem_nil, or_false] at hr
    rcases hr with hr | hr <;> subst hr
    · exact ⟨⟨"200", rfl, Or.inr (by decide)⟩, ⟨"bob", rfl, by decide⟩,
        ⟨"f1 f2", rfl⟩, ⟨"msg", rfl, by decide⟩⟩
    · exact ⟨⟨"100", rfl, Or.inr (by decide)⟩, ⟨" alice ", rfl, by decide⟩,
        ⟨"f1 f2", rfl⟩, ⟨"msg", rfl, by decide⟩⟩
  have h := gitpoller_emits_each_new_commit_oldest_first cfgW1 envW1 sW1
    "c2\nc1\n" ⟨"fetchnoise", rfl⟩ rfl hg
  exact ⟨h.1.trans (by decide), h.2.trans (by decide)⟩

/-- Claim C10: the deferred returned by poll never fires a failure toward
its caller: every branch of the modelled cycle ends in an errback that
consumes the failure, so the caller always observes ordinary completion. -/
theorem gitpoller_poll_never_fails_caller (cfg : GitPollerCfg) (env : GitEnv)
    (s : PollerState) : (poll cfg env s).success = true := by
  unfold poll
  cases env.fetchRes with
  | error e => rfl
  | ok o =>
    cases env.logRes with
    | error e => rfl
    | ok out => rfl

/-- Claim C2 (refuted by the code): in a modelled cycle with one new commit
whose metadata queries all succeed, the catch up reset is spawned before the
Change is emitted, because _process_changes_in_output drops its per commit
deferred lists and returns None, letting the poll chain reach _catch_up
while every metadata query is still pending.  The full reactor ordered trace
is computed and the reset spawn sits strictly before the emission. -/
theorem gitpoller_reset_spawned_before_change_emission :
    (poll cfgC2 envC2 sC2).trace =
      [Event.spawnFetch, Event.spawnRevList, Event.spawnMetaQueries "r1",
       Event.spawnReset, Event.emit chgC2, Event.resetExit 0] ∧
    List.indexOf Event.spawnReset (poll cfgC2 envC2 sC2).trace <
      List.indexOf (Event.emit chgC2) (poll cfgC2 envC2 sC2).trace := by
  decide

/-- Counterexample to claim C3 as stated: the fetch fails, yet the cycle
does not abort before the catch up step.  With the change count retained
from the previous cycle being two, the reset is spawned and the mirror head
advances from oldhead to newtip. -/
theorem gitpoller_failure_still_catches_up_cx :
    Event.spawnReset ∈ (poll cfgC3 envC3 sC3).trace ∧
    (poll cfgC3 envC3 sC3).state.head = "newtip" ∧ sC3.head = "oldhead" := by
  decide

/-- Claim C3 amended: a fetch or rev listing failure is logged and swallowed
(the deferred of poll still completes), but the cycle does not abort before
catch up: the chain proceeds to the catch up step with the change count
retained from the last completed listing, so with that count nonzero and a
successful hard reset the mirror head advances to the fetched tip while the
poller keeps running; no Change is emitted in such a cycle.  (A metadata
query failure likewise does not prevent the catch up step, since it stays on
the per commit deferred list and never reaches the cycle level handler.) -/
theorem gitpoller_failure_swallowed_then_catch_up
    (cfg : GitPollerCfg) (env : GitEnv) (s : PollerState)
    (hfail : env.fetchRes = Except.error () ∨
      ((∃ o, env.fetchRes = Except.ok o) ∧ env.logRes = Except.error ()))
    (hc : s.changeCount ≠ 0) (o2 e2 : String)
    (hr : env.resetRes = Except.ok (o2, e2, 0)) :
    (poll cfg env s).success = true ∧
    Event.spawnReset ∈ (poll cfg env s).trace ∧
    (poll cfg env s).state.head = env.tip ∧
    (poll cfg env s).state.stopped = s.stopped ∧
    emittedChanges (poll cfg env s).trace = [] := by
  rcases hfail with hfail | ⟨⟨o, ho⟩, hlog⟩
  · simp [poll, hfail, finishCycle, catchUpState, catchUpTrace, hc, hr,
      emittedChanges]
  · simp [poll, ho, hlog, finishCycle, catchUpState, catchUpTrace, hc, hr,
      emittedChanges]

/-- Witness for the amended claim C3: a failing fetch with a retained change
count of one and a clean reset advances the head to tipw, emits nothing,
completes, and leaves the poller running. -/
theorem gitpoller_failure_swallowed_then_catch_up_witness :
    (poll cfgC3 envC3w sC3w).success = true ∧
    Event.spawnReset ∈ (poll cfgC3 envC3w sC3w).trace ∧
    (poll cfgC3 envC3w sC3w).state.head = "tipw" ∧
    (poll cfgC3 envC3w sC3w).state.stopped = false ∧
    emittedChanges (poll cfgC3 envC3w sC3w).trace = [] :=
  gitpoller_failure_swallowed_then_catch_up cfgC3 envC3w sC3w (Or.inl rfl)
    (by decide) "" "" rfl

/-- Claim C4: when the catch up step itself fails (the reset deferred
errbacks or the reset exits nonzero), the failure handler logs the failure
and stops the service of an attached poller, so no further polls get
scheduled; the consumed failure still lets the deferred of poll complete. -/
theorem gitpoller_catch_up_failure_stops_service
    (cfg : GitPollerCfg) (env : GitEnv) (s : PollerState) (out : String)
    (hp : s.parent = true)
    (hf : ∃ o, env.fetchRes = Except.ok o) (hl : env.logRes = Except.ok out)
    (hn : pySplit out ≠ [])
    (hr : env.resetRes = Except.error () ∨
      ∃ o2 e2 c2, env.resetRes = Except.ok (o2, e2, c2) ∧ c2 ≠ 0) :
    (poll cfg env s).state.stopped = true ∧ (poll cfg env s).success = true := by
  obtain ⟨o, ho⟩ := hf
  have hcount : ¬((pySplit out).reverse.length = 0) := by
    simpa [List.length_reverse, List.length_eq_zero] using hn
  rcases hr with hr | ⟨o2, e2, c2, hr, hc2⟩
  · simp [poll, ho, hl, finishCycle, catchUpState, hr, hcount, stopIfParent, hp]
  · simp [poll, ho, hl, finishCycle, catchUpState, hr, hcount, stopIfParent,
      hp, hc2]

/-- Witness for claim C4: one new commit and a reset exiting with code one
stop the service while poll still completes. -/
theorem gitpoller_catch_up_failure_stops_service_witness :
    (poll cfgC4 envC4 sC4).state.stopped = true ∧
    (poll cfgC4 envC4 sC4).success = true :=
  gitpoller_catch_up_failure_stops_service cfgC4 envC4 sC4 "r1" rfl
    ⟨"", rfl⟩ rfl (by decide)
    (Or.inr ⟨"", "conflict", 1, rfl, by decide⟩)

/-- Claim C5: in a cycle whose fetch and rev listing succeed, a zero commit
count spawns no reset and leaves the mirror head untouched (no changes, no
catch up), while a nonzero count whose reset exits cleanly moves the head to
the fetched tip. -/
theorem gitpoller_catch_up_reset_semantics
    (cfg : GitPollerCfg) (env : GitEnv) (s : PollerState) (out : String)
    (hf : ∃ o, env.fetchRes = Except.ok o) (hl : env.logRes = Except.ok out) :
    (pySplit out = [] →
      Event.spawnReset ∉ (poll cfg env s).trace ∧
      (poll cfg env s).state.head = s.head) ∧
    (pySplit out ≠ [] → ∀ o2 e2, env.resetRes = Except.ok (o2, e2, 0) →
      (poll cfg env s).state.head = env.tip) := by
  obtain ⟨o, ho⟩ := hf
  have hhead : ∀ st : PollerState, (stopIfParent st).head = st.head := by
    intro st
    unfold stopIfParent
    split <;> rfl
  constructor
  · intro he
    constructor
    · simp [poll, ho, hl, he, finishCycle, catchUpTrace, processRevs]
    · simp [poll, ho, hl, he, finishCycle, catchUpState, processRevs, hhead]
  · intro hn o2 e2 hr
    have hcount : ¬((pySplit out).reverse.length = 0) := by
      simpa [List.length_reverse, List.length_eq_zero] using hn
    simp [poll, ho, hl, finishCycle, catchUpState, hr, hcount, hn]

/-- Witness for claim C5: an empty listing spawns no reset and keeps the
head at h0; a one commit listing with a clean reset moves the head to
tip5. -/
theorem gitpoller_catch_up_reset_semantics_witness :
    (Event.spawnReset ∉ (poll cfgC5 envC5 sC5).trace ∧
      (poll cfgC5 envC5 sC5).state.head = "h0") ∧
    (poll cfgC5 envC5b sC5).state.head = "tip5" :=
  ⟨(gitpoller_catch_up_reset_semantics cfgC5 envC5 sC5 "" ⟨"x", rfl⟩ rfl).1 rfl,
   (gitpoller_catch_up_reset_semantics cfgC5 envC5b sC5 "r9" ⟨"x", rfl⟩ rfl).2
     (by decide) "" "" rfl⟩

/-- Claim C6 (modelled from the spec, the scheduler module itself not being
part of the excerpt): addBuildsetForChanges, for any order of changeids,
builds a buildset whose SourceStamp takes branch, repository, project and
revision from the Change with the numerically highest changeid and attaches
the full changeid set sorted ascending. -/
theorem scheduler_source_stamp_from_highest_changeid
    (sched : Scheduler) (db : List DbChange) (reason : String)
    (changeids : List Nat) (props : List (String × String × String))
    (m : Nat) (c : DbChange)
    (hm : maxChangeid changeids = some m) (hc : findChange db m = some c) :
    ∃ bs, addBuildsetForChanges sched db reason changeids props = some bs ∧
      bs.ss.branch = c.branch ∧ bs.ss.repository = c.repository ∧
      bs.ss.project = c.project ∧ bs.ss.revision = some c.revision ∧
      List.Sorted (fun a b => a ≤ b) bs.ss.changeids ∧
      List.Perm bs.ss.changeids changeids := by
  unfold addBuildsetForChanges
  rw [hm]
  dsimp only
  rw [hc]
  dsimp only
  exact ⟨_, rfl, rfl, rfl, rfl, rfl,
    List.sorted_insertionSort _ changeids, List.perm_insertionSort _ changeids⟩

/-- Witness for claim C6, mirroring test_addBuildsetForChanges_multiple_changes:
changeids 14, 15, 13 given out of order pick the coordinates of change 15 and
attach the sorted set 13, 14, 15. -/
theorem scheduler_source_stamp_from_highest_changeid_witness :
    ∃ bs, addBuildsetForChanges schedC6 dbC6 "power" [14, 15, 13] [] = some bs ∧
      bs.ss.branch = some "trunk" ∧ bs.ss.repository = "svnrepo" ∧
      bs.ss.project = "world-domination" ∧ bs.ss.revision = some "9285" ∧
      List.Sorted (fun a b => a ≤ b) bs.ss.changeids ∧
      List.Perm bs.ss.changeids [14, 15, 13] :=
  scheduler_source_stamp_from_highest_changeid schedC6 dbC6 "power"
    [14, 15, 13] [] 15 chgC615 (by decide) (by decide)

/-- Claim C7 (modelled from the spec): a fileIsImportant predicate that
raises on a Change makes the scheduler classify that Change as ignored
(neither important nor unimportant) with the error logged; the bus handler
of the scheduler still completes normally, and delivery to every other
subscriber proceeds unchanged. -/
theorem scheduler_raising_predicate_ignored_and_isolated
    (f : Change → Except Unit Bool) (c : Change) (h : f c = Except.error ()) :
    classifyChange none (some f) c =
      { result := Classification.ignored, loggedError := true } ∧
    schedulerBusHandler none (some f) c = Except.ok () ∧
    ∀ (pre post : List (Change → Except Unit Unit)),
      publishToAll (pre ++ schedulerBusHandler none (some f) :: post) c =
        publishToAll pre c ++ true :: publishToAll post c := by
  refine ⟨?_, ?_, ?_⟩
  · simp [classifyChange, evalImportance, h]
  · rfl
  · intro pre post
    simp [publishToAll, schedulerBusHandler]

/-- Witness for claim C7: an always raising predicate on a concrete Change
is classified ignored with the error logged, and a bus with the scheduler
handler between two other subscribers still delivers to all three. -/
theorem scheduler_raising_predicate_ignored_and_isolated_witness :
    classifyChange none (some (fun _ => Except.error ())) chgC7 =
      { result := Classification.ignored, loggedError := true } ∧
    publishToAll ([fun _ => Except.ok ()] ++
        schedulerBusHandler none (some (fun _ => Except.error ())) ::
        [fun _ => Except.ok ()]) chgC7 = [true, true, true] := by
  have h := scheduler_raising_predicate_ignored_and_isolated
    (fun _ => Except.error ()) chgC7 rfl
  exact ⟨h.1, (h.2.2 [fun _ => Except.ok ()] [fun _ => Except.ok ()]).trans rfl⟩

/-- For a key absent from every setState call, the store built from those
calls has no entry under that key. -/
theorem lookupState_applyOps_aux {V : Type} :
    ∀ (ops : List (String × V)) (st : List (String × V)) (k : String),
      k ∉ ops.map Prod.fst → lookupState st k = none →
      lookupState (ops.foldl (fun acc p => setState acc p.1 p.2) st) k = none := by
  intro ops
  induction ops with
  | nil => intro st k hk hst; exact hst
  | cons p ops ih =>
    intro st k hk hst
    have hne : ¬(p.1 = k) := by
      intro he
      exact hk (by rw [List.map_cons, he]; exact List.mem_cons_self k _)
    have hst2 : lookupState (setState st p.1 p.2) k = none := by
      simp [setState, lookupState, hne, hst]
    have hk2 : k ∉ ops.map Prod.fst := by
      intro hmem
      exact hk (by rw [List.map_cons]; exact List.mem_cons_of_mem _ hmem)
    simpa [List.foldl_cons] using ih (setState st p.1 p.2) k hk2 hst2

/-- Claim C8 (modelled from the spec): for a key never set by any setState
call, getState without a default fails with the distinct missing key error
while getState with a default returns that default; once the key is set the
stored value is returned in preference to the default. -/
theorem scheduler_get_state_missing_key_vs_default {V : Type}
    (ops : List (String × V)) (k : String) (d v : V)
    (hk : k ∉ ops.map Prod.fst) :
    getState (applyOps ops) k none = GetStateResult.missingKeyError ∧
    getState (applyOps ops) k (some d) = GetStateResult.value d ∧
    getState (setState (applyOps ops) k v) k (some d) = GetStateResult.value v := by
  have hnone : lookupState (applyOps ops) k = none :=
    lookupState_applyOps_aux ops [] k hk rfl
  refine ⟨?_, ?_, ?_⟩
  · simp [getState, hnone]
  · simp [getState, hnone]
  · simp [getState, setState, lookupState]

/-- Witness for claim C8, mirroring test_getState_KeyError and
test_getState_default: with only fav_color ever set, fav_book without a
default is the missing key error, with a default yields the default, and
after setting it the stored value wins. -/
theorem scheduler_get_state_missing_key_vs_default_witness :
    getState (applyOps [("fav_color", 3)]) "fav_book" none =
      GetStateResult.missingKeyError ∧
    getState (applyOps [("fav_color", 3)]) "fav_book" (some 7) =
      GetStateResult.value 7 ∧
    getState (setState (applyOps [("fav_color", 3)]) "fav_book" 9) "fav_book"
      (some 7) = GetStateResult.value 9 :=
  scheduler_get_state_missing_key_vs_default [("fav_color", 3)] "fav_book" 7 9
    (by decide)

/-- Claim C9 (modelled from the spec): every buildset creating operation
persists properties that start with the implicit scheduler property (the
scheduler name, sourced Scheduler) and keep every caller supplied property
as a separate later entry, never merged by name. -/
theorem buildset_scheduler_property_injected_ahead
    (sched : Scheduler) (reason : String) (branch : Option String)
    (repository project : String) (ext : Option String) (ss : SourceStamp)
    (db : List DbChange) (cids : List Nat)
    (props : List (String × String × String)) :
    (addBuildsetForLatest sched reason branch repository project ext
        props).properties = ("scheduler", sched.name, "Scheduler") :: props ∧
    (addBuildsetForSourceStamp sched reason ss ext props).properties
      = ("scheduler", sched.name, "Scheduler") :: props ∧
    (∀ bs, addBuildsetForChanges sched db reason cids props = some bs →
      bs.properties = ("scheduler", sched.name, "Scheduler") :: props) := by
  refine ⟨rfl, rfl, ?_⟩
  intro bs hbs
  rcases hm : maxChangeid cids with _ | m
  · simp [addBuildsetForChanges, hm] at hbs
  · rcases hc : findChange db m with _ | c
    · simp [addBuildsetForChanges, hm, hc] at hbs
    · simp [addBuildsetForChanges, hm, hc] at hbs
      subst hbs
      rfl

/-- Witness for claim C9: the three operations on concrete inputs, with one
caller property, all yield the scheduler property first and the caller
property second. -/
theorem buildset_scheduler_property_injected_ahead_witness :
    (addBuildsetForLatest schedC9 "cuz" (some "default") "hgmo" "myp"
        (some "try_1234") [("xxx", "yyy", "TEST")]).properties =
      [("scheduler", "xyz", "Scheduler"), ("xxx", "yyy", "TEST")] ∧
    (addBuildsetForSourceStamp schedC9 "cuz" ssC9 none
        [("xxx", "yyy", "TEST")]).properties =
      [("scheduler", "xyz", "Scheduler"), ("xxx", "yyy", "TEST")] ∧
    addBuildsetForChanges schedC9 dbC9 "cuz" [14] [("xxx", "yyy", "TEST")] =
      some bsC9 ∧
    bsC9.properties = [("scheduler", "xyz", "Scheduler"), ("xxx", "yyy", "TEST")] := by
  have h := buildset_scheduler_property_injected_ahead schedC9 "cuz"
    (some "default") "hgmo" "myp" (some "try_1234") ssC9 dbC9 [14]
    [("xxx", "yyy", "TEST")]
  refine ⟨h.1, ?_, by decide, h.2.2 bsC9 (by decide)⟩
  have h2 := buildset_scheduler_property_injected_ahead schedC9 "cuz"
    (some "default") "hgmo" "myp" none ssC9 dbC9 [14] [("xxx", "yyy", "TEST")]
  exact h2.2.1
